import Mathlib

/-
Verification development for the pfSense config monitor (src/monitor.py).

The program watches directories for newly created files; files named
"config-*.xml" are run through a two-stage conversion pipeline
(external "pf-format" process producing a temporary Markdown file, then an
in-process pandoc call producing a .docx file next to the source), with the
temporary file removed at the end of the successful path.

The embedding below models the pure/decision content of the script:
the event filter of FileCreationHandler.on_created, the os.path string
functions it relies on (POSIX semantics), the control flow and observable
effects of FileCreationHandler.process_new_file (with the outcomes of the
external calls supplied by an environment), the watch-scheduling loop of
monitor_directory, and the startup logic of the __main__ block.
-/

namespace MonitorModel

/-- Model of Python s.endswith(suffix): the trailing characters equal the suffix. -/
def listEndsWith (l suffix : List Char) : Bool :=
  l.reverse.take suffix.length == suffix.reverse

/-- Model of Python s.startswith(pre): the leading characters equal pre. -/
def listStartsWith (l pre : List Char) : Bool :=
  l.take pre.length == pre

/-- Python str.endswith on strings. -/
def strEndsWith (s suffix : String) : Bool := listEndsWith s.data suffix.data

/-- Python str.startswith on strings. -/
def strStartsWith (s pre : String) : Bool := listStartsWith s.data pre.data

/-- Python str.lower, modelled on the ASCII range (all literals compared in the
program are ASCII). -/
def strLower (s : String) : String := ⟨s.data.map Char.toLower⟩

/-- Model of os.path.basename (POSIX): the characters after the last slash. -/
def osPathBasename (p : String) : String :=
  ⟨(p.data.reverse.takeWhile (fun c => !(c == '/'))).reverse⟩

/-- Model of os.path.dirname (POSIX): everything up to the last slash (held
here in reversed form as revHead), with trailing slashes stripped unless the
result is all slashes. -/
def osPathDirname (p : String) : String :=
  let revHead := p.data.reverse.dropWhile (fun c => !(c == '/'))
  if revHead.all (fun c => c == '/') then ⟨revHead.reverse⟩
  else ⟨(revHead.dropWhile (fun c => c == '/')).reverse⟩

/-- Model of os.path.join (POSIX, two arguments): an absolute second component
replaces the first; otherwise the components are joined with a slash unless the
first is empty or already ends in a slash. -/
def osPathJoin (a b : String) : String :=
  if listStartsWith b.data ['/'] then b
  else if a.data == [] || listEndsWith a.data ['/'] then a ++ b
  else a ++ "/" ++ b

/-- Model of os.path.splitext (POSIX): split at the last dot occurring after the
last slash, unless the basename up to that dot consists entirely of dots. -/
def splitext (p : String) : String × String :=
  let rest := p.data.reverse.dropWhile (fun c => !(c == '.' || c == '/'))
  if rest.head? = some '.' then
    let root : String := ⟨rest.tail.reverse⟩
    if (osPathBasename root).data.any (fun c => !(c == '.')) then
      (root, ⟨'.' :: (p.data.reverse.takeWhile (fun c => !(c == '.' || c == '/'))).reverse⟩)
    else (p, "")
  else (p, "")

/-- A raw filesystem creation event as delivered by watchdog. -/
structure FileEvent where
  src_path : String
  is_directory : Bool

/-- The event filter of FileCreationHandler.on_created: directories are ignored,
.docx names (case-insensitively) are excluded, and a job (directory, source
path) is produced exactly for names that end in .xml (case-insensitively) and
start with "config-". -/
def on_created (event : FileEvent) : Option (String × String) :=
  if event.is_directory then none
  else
    let file_path := event.src_path
    let filename := osPathBasename file_path
    let directory_path := osPathDirname file_path
    if strEndsWith (strLower filename) ".docx" then none
    else if strEndsWith (strLower filename) ".xml" && strStartsWith filename "config-" then
      some (directory_path, file_path)
    else none

/-- The on_created filter with the .docx exclusion line removed (for the
redundancy claim). -/
def on_created_noDocxRule (event : FileEvent) : Option (String × String) :=
  if event.is_directory then none
  else
    let file_path := event.src_path
    let filename := osPathBasename file_path
    let directory_path := osPathDirname file_path
    if strEndsWith (strLower filename) ".xml" && strStartsWith filename "config-" then
      some (directory_path, file_path)
    else none

/-- Outcome of the stage-1 subprocess.run call when it returns: captured exit
status and the two output streams. -/
structure Stage1Run where
  returncode : Int
  stdout : String
  stderr : String
deriving DecidableEq

/-- How the stage-1 invocation (subprocess.run of powershell/pf-format) ends:
it returns a completed-process value, it raises subprocess.CalledProcessError
(the only exception class the code catches there), or it raises some other
exception (which escapes process_new_file). -/
inductive Stage1Outcome where
  | ran (r : Stage1Run)
  | raisedCalledProcessError
  | raisedOther
deriving DecidableEq

/-- How os.makedirs ends when called. -/
inductive MkdirOutcome where
  | ok
  | osError
deriving DecidableEq

/-- How the stage-2 pypandoc.convert_file call ends: it returns a diagnostic
string, or it raises an exception. -/
inductive Stage2Outcome where
  | returned (diag : String)
  | raised
deriving DecidableEq

/-- How os.remove of the temporary file ends when called. -/
inductive RemoveOutcome where
  | ok
  | osError
deriving DecidableEq

/-- Environment for one job: the outcomes of the external calls made by
process_new_file, fixed up front since the calls are opaque collaborators. -/
structure JobEnv where
  stage1 : Stage1Outcome
  dirExists : Bool
  mkdir : MkdirOutcome
  stage2 : Stage2Outcome
  removeTemp : RemoveOutcome

/-- The successive externally visible steps of process_new_file, in order. -/
inductive PipelineStep where
  | runStage1
  | logStderr
  | deriveOutput
  | checkDir
  | makeDirs
  | runStage2
  | removeTempFile
deriving DecidableEq

/-- Observable result of one call of process_new_file. -/
structure JobEffects where
  stage1Invoked : Bool
  stderrLogged : Bool
  outputPathDerived : Option String
  mkdirCalled : Bool
  stage2Ran : Bool
  successLogged : Bool
  conversionErrorLogged : Bool
  outputWritten : Bool
  tempRemoveAttempted : Bool
  tempRemoved : Bool
  escapedException : Bool
  trace : List PipelineStep
deriving DecidableEq

/-- The derived output path of process_new_file:
docx_filename = os.path.splitext(file_path)[0] + ".docx" and
docx_file_path = os.path.join(directory_path, docx_filename). -/
def derivedOutputPath (directory_path file_path : String) : String :=
  osPathJoin directory_path ((splitext file_path).1 ++ ".docx")

/-- The output path as the spec words it: the source file's own directory
joined with the source file's base name carrying the final .docx extension. -/
def specOutputPath (file_path : String) : String :=
  osPathJoin (osPathDirname file_path) ((splitext (osPathBasename file_path)).1 ++ ".docx")

/-- Stage 2 and cleanup portion of process_new_file (lines 128-144): the
pypandoc call, with a thrown error returning early and skipping the removal of
the temporary file, and otherwise (empty or non-empty diagnostic alike) the
attempt to os.remove the temporary .md file.  outputWritten records the
stage-2 collaborator contract: the final file exists exactly on an empty
diagnostic. -/
def stage2AndCleanup (env : JobEnv) (sl : Bool) (docx_file_path : String)
    (mk : Bool) (t : List PipelineStep) : JobEffects :=
  match env.stage2 with
  | .raised =>
    { stage1Invoked := true
      stderrLogged := sl
      outputPathDerived := some docx_file_path
      mkdirCalled := mk
      stage2Ran := true
      successLogged := false
      conversionErrorLogged := true
      outputWritten := false
      tempRemoveAttempted := false
      tempRemoved := false
      escapedException := false
      trace := t ++ [.runStage2] }
  | .returned d =>
    { stage1Invoked := true
      stderrLogged := sl
      outputPathDerived := some docx_file_path
      mkdirCalled := mk
      stage2Ran := true
      successLogged := decide (d = "")
      conversionErrorLogged := decide (d ≠ "")
      outputWritten := decide (d = "")
      tempRemoveAttempted := true
      tempRemoved := decide (env.removeTemp = .ok)
      escapedException := false
      trace := t ++ [.runStage2, .removeTempFile] }

/-- FileCreationHandler.process_new_file (lines 97-146): run the external
pf-format command (only subprocess.CalledProcessError is caught, and it makes
the function return before anything else happens; any other raised exception
escapes), log a non-empty stderr as an error, derive the output path, ensure
the output directory exists (an OSError from os.makedirs makes the function
return), then stage 2 and cleanup. -/
def process_new_file (env : JobEnv) (directory_path file_path md_file_path : String) :
    JobEffects :=
  match env.stage1 with
  | .raisedCalledProcessError =>
    { stage1Invoked := true
      stderrLogged := false
      outputPathDerived := none
      mkdirCalled := false
      stage2Ran := false
      successLogged := false
      conversionErrorLogged := false
      outputWritten := false
      tempRemoveAttempted := false
      tempRemoved := false
      escapedException := false
      trace := [.runStage1] }
  | .raisedOther =>
    { stage1Invoked := true
      stderrLogged := false
      outputPathDerived := none
      mkdirCalled := false
      stage2Ran := false
      successLogged := false
      conversionErrorLogged := false
      outputWritten := false
      tempRemoveAttempted := false
      tempRemoved := false
      escapedException := true
      trace := [.runStage1] }
  | .ran r =>
    let sl := decide (r.stderr ≠ "")
    let docx_file_path := derivedOutputPath directory_path file_path
    let preTrace := [PipelineStep.runStage1] ++
      (if sl then [PipelineStep.logStderr] else []) ++
      [PipelineStep.deriveOutput, PipelineStep.checkDir]
    if env.dirExists then
      stage2AndCleanup env sl docx_file_path false preTrace
    else
      match env.mkdir with
      | .osError =>
        { stage1Invoked := true
          stderrLogged := sl
          outputPathDerived := some docx_file_path
          mkdirCalled := true
          stage2Ran := false
          successLogged := false
          conversionErrorLogged := false
          outputWritten := false
          tempRemoveAttempted := false
          tempRemoved := false
          escapedException := false
          trace := preTrace ++ [.makeDirs] }
      | .ok => stage2AndCleanup env sl docx_file_path true (preTrace ++ [.makeDirs])

/-- Environment exhibiting the output-directory-creation-failure exit path
(stage 1 returned cleanly, the output directory is missing and os.makedirs
fails). -/
def cexEnvDirFail : JobEnv :=
  { stage1 := .ran { returncode := 0, stdout := "", stderr := "" }
    dirExists := false
    mkdir := .osError
    stage2 := .returned ""
    removeTemp := .ok }

/-- Environment in which the stage-1 process exits with status 1 and every
later call succeeds. -/
def cexEnvExit1 : JobEnv :=
  { stage1 := .ran { returncode := 1, stdout := "", stderr := "pf-format: error" }
    dirExists := true
    mkdir := .ok
    stage2 := .returned ""
    removeTemp := .ok }

/-- Environment in which stage 2 raises an exception. -/
def cexEnvStage2Raise : JobEnv :=
  { stage1 := .ran { returncode := 0, stdout := "", stderr := "" }
    dirExists := true
    mkdir := .ok
    stage2 := .raised
    removeTemp := .ok }

/-- Environment in which stage 2 returns a non-empty diagnostic. -/
def cexEnvDiag : JobEnv :=
  { stage1 := .ran { returncode := 0, stdout := "", stderr := "" }
    dirExists := true
    mkdir := .ok
    stage2 := .returned "pandoc: error"
    removeTemp := .ok }

/-- Environment in which stage 1 returns with a non-empty stderr stream and
everything else succeeds. -/
def cexEnvStderr : JobEnv :=
  { stage1 := .ran { returncode := 0, stdout := "", stderr := "warning" }
    dirExists := true
    mkdir := .ok
    stage2 := .returned ""
    removeTemp := .ok }

/-- Environment in which the output directory is missing and os.makedirs
succeeds, with every other call succeeding as well. -/
def cexEnvMkdirOk : JobEnv :=
  { stage1 := .ran { returncode := 0, stdout := "", stderr := "" }
    dirExists := false
    mkdir := .ok
    stage2 := .returned ""
    removeTemp := .ok }

/-- Environment in which stage 1 raises subprocess.CalledProcessError. -/
def cexEnvThrow : JobEnv :=
  { stage1 := .raisedCalledProcessError
    dirExists := true
    mkdir := .ok
    stage2 := .returned ""
    removeTemp := .ok }

/-- How observer.schedule ends for one root path: it succeeds, or it raises
OSError (bad or inaccessible root), the exception class the loop catches. -/
inductive ScheduleOutcome where
  | ok
  | osError
deriving DecidableEq

/-- Environment for the watch-setup loop: the outcome of observer.schedule on
each root path. -/
structure WatchEnv where
  schedule : String → ScheduleOutcome

/-- Observable result of the scheduling loop of monitor_directory: the roots
attempted in order, those successfully scheduled, and those whose failure was
logged. -/
structure WatchSetup where
  attempted : List String
  watched : List String
  failuresLogged : List String
deriving DecidableEq

/-- The scheduling loop of monitor_directory (lines 148-159): each path in
turn is scheduled inside its own try, an OSError is logged and only skips that
path (observer.start and the wait loop that follow are process-level I/O and
are not modelled). -/
def monitor_directory (env : WatchEnv) : List String → WatchSetup
  | [] => { attempted := [], watched := [], failuresLogged := [] }
  | path :: rest =>
    let tail := monitor_directory env rest
    match env.schedule path with
    | .ok =>
      { attempted := path :: tail.attempted
        watched := path :: tail.watched
        failuresLogged := tail.failuresLogged }
    | .osError =>
      { attempted := path :: tail.attempted
        watched := tail.watched
        failuresLogged := path :: tail.failuresLogged }

/-- Python str.strip, modelled on the ASCII whitespace range. -/
def pyStrip (s : String) : String :=
  ⟨((s.data.dropWhile Char.isWhitespace).reverse.dropWhile Char.isWhitespace).reverse⟩

/-- The interactive path-collection loop of the __main__ block: each entered
line is stripped; a non-empty result is appended and a blank line stops the
loop. -/
def collectPaths : List String → List String
  | [] => []
  | line :: rest =>
    let input_path := pyStrip line
    if input_path = "" then [] else input_path :: collectPaths rest

/-- What the __main__ block does after collecting paths: exit with a non-zero
status, or start monitoring a set of roots. -/
inductive MainAction where
  | exitWithError (code : Nat)
  | startMonitoring (roots : List String)
deriving DecidableEq

/-- The __main__ block (lines 170-192): the configured list is the empty
literal, so the interactive loop runs; if the resulting list is still empty
the program exits with status 1, otherwise monitoring starts on the collected
roots. -/
def mainAction (inputs : List String) : MainAction :=
  let paths_to_watch : List String := []
  let paths := if paths_to_watch.isEmpty then paths_to_watch ++ collectPaths inputs
               else paths_to_watch
  if paths.isEmpty then .exitWithError 1 else .startMonitoring paths

end MonitorModel

namespace MonitorModel

theorem ofNat_shifted_ne_dot : ∀ m, m < 91 → 65 ≤ m → Char.ofNat (m + 32) ≠ '.' := by decide

theorem toLower_eq_dot {c : Char} (h : Char.toLower c = '.') : c = '.' := by
  have h2 : (if c.toNat ≥ 65 ∧ c.toNat ≤ 90 then Char.ofNat (c.toNat + 32) else c) = '.' := h
  split at h2
  · exact absurd h2 (ofNat_shifted_ne_dot c.toNat (by omega) (by omega))
  · exact h2

theorem endsWith_xml_not_docx {l : List Char}
    (h : listEndsWith l ['.', 'x', 'm', 'l'] = true) :
    listEndsWith l ['.', 'd', 'o', 'c', 'x'] = false := by
  have h4 : l.reverse.take 4 = ['l', 'm', 'x', '.'] := by
    simpa [listEndsWith] using h
  cases hd : listEndsWith l ['.', 'd', 'o', 'c', 'x'] with
  | false => rfl
  | true =>
    exfalso
    have h5 : l.reverse.take 5 = ['x', 'c', 'o', 'd', '.'] := by
      simpa [listEndsWith] using hd
    have ht := List.take_take 4 5 l.reverse
    rw [h5] at ht
    have : (['l', 'm', 'x', '.'] : List Char) = ['x', 'c', 'o', 'd'] := by
      rw [← h4]
      simpa using ht.symm
    exact absurd this (by decide)

theorem strEndsWith_xml_not_docx {s : String} (h : strEndsWith s ".xml" = true) :
    strEndsWith s ".docx" = false :=
  endsWith_xml_not_docx h

/-- C10: the event filter with the case-insensitive .docx exclusion removed
accepts exactly the same events (and produces the same job spec) as the full
filter, because no filename whose lowercase form ends in .xml also ends in
.docx. -/
theorem C10_docx_rule_redundant (event : FileEvent) :
    on_created event = on_created_noDocxRule event := by
  obtain ⟨p, d⟩ := event
  cases d with
  | true => rfl
  | false =>
    unfold on_created on_created_noDocxRule
    cases hdocx : strEndsWith (strLower (osPathBasename p)) ".docx" with
    | false => simp [hdocx]
    | true =>
      cases hxml : strEndsWith (strLower (osPathBasename p)) ".xml" with
      | false => simp [hdocx, hxml]
      | true => exact absurd hdocx (by simp [strEndsWith_xml_not_docx hxml])

/-- C3: a conversion job is created from a filesystem creation event if and
only if the event is not for a directory, the lowercased filename ends in
.xml, the lowercased filename does not end in .docx, and the filename starts
with the prefix "config-". -/
theorem C3_filter_characterization (event : FileEvent) :
    (on_created event).isSome = true ↔
      (event.is_directory = false ∧
       strEndsWith (strLower (osPathBasename event.src_path)) ".xml" = true ∧
       strEndsWith (strLower (osPathBasename event.src_path)) ".docx" = false ∧
       strStartsWith (osPathBasename event.src_path) "config-" = true) := by
  obtain ⟨p, d⟩ := event
  cases d <;>
    cases h1 : strEndsWith (strLower (osPathBasename p)) ".docx" <;>
      cases h2 : strEndsWith (strLower (osPathBasename p)) ".xml" <;>
        cases h3 : strStartsWith (osPathBasename p) "config-" <;>
          simp [on_created, h1, h2, h3]

/-- C9: the "config-" prefix check is case-sensitive while the extension
checks are case-insensitive: "Config-a.xml" is rejected even though its
lowercased name ends in .xml and not .docx, while "config-a.XML" is accepted. -/
theorem C9_prefix_case_sensitive :
    on_created ⟨"/watch/Config-a.xml", false⟩ = none ∧
    strEndsWith (strLower "Config-a.xml") ".xml" = true ∧
    strEndsWith (strLower "Config-a.xml") ".docx" = false ∧
    strStartsWith "Config-a.xml" "config-" = false ∧
    on_created ⟨"/watch/config-a.XML", false⟩ = some ("/watch", "/watch/config-a.XML") := by
  decide

/-- C1 counterexample: on the output-directory-creation-failure exit path
(temporary-file allocation and stage 1 both succeeded), process_new_file
returns without attempting to delete the temporary .md file. -/
theorem C1_counterexample :
    (process_new_file cexEnvDirFail "/watch" "/watch/config-a.xml" "/tmp/t.md").tempRemoveAttempted
      = false ∧
    (process_new_file cexEnvDirFail "/watch" "/watch/config-a.xml" "/tmp/t.md").tempRemoved
      = false := by
  decide

/-- C1 amended: the deletion of the temporary .md file is attempted exactly
when stage 1 returned a completed process, the output directory was available
(already present, or os.makedirs succeeded), and stage 2 returned a diagnostic
rather than raising; on the stage-1 thrown-error, directory-creation-failure
and stage-2 thrown-error exit paths the temporary file is not deleted. -/
theorem C1_cleanup_only_after_stage2_returns (env : JobEnv) (dp fp mp : String) :
    (process_new_file env dp fp mp).tempRemoveAttempted = true ↔
      ((∃ r, env.stage1 = .ran r) ∧
       (env.dirExists = true ∨ env.mkdir = .ok) ∧
       (∃ d, env.stage2 = .returned d)) := by
  obtain ⟨s1, de, mk, s2, rt⟩ := env
  cases s1 <;> cases de <;> cases mk <;> cases s2 <;>
    simp [process_new_file, stage2AndCleanup]

/-- C2 counterexample: the stage-1 process signals failure via exit status 1,
yet stage 2 runs and the final output file is produced — a non-zero exit
status does not abort the job. -/
theorem C2_counterexample :
    cexEnvExit1.stage1 = .ran { returncode := 1, stdout := "", stderr := "pf-format: error" } ∧
    (1 : Int) ≠ 0 ∧
    (process_new_file cexEnvExit1 "/watch" "/watch/config-a.xml" "/tmp/t.md").stage2Ran = true ∧
    (process_new_file cexEnvExit1 "/watch" "/watch/config-a.xml" "/tmp/t.md").outputWritten
      = true := by
  decide

/-- C2 amended: only a thrown stage-1 invocation error (the caught
subprocess.CalledProcessError) aborts the job; then stage 2 never runs and no
final output is written, but the job returns immediately without attempting
cleanup.  A non-zero exit status alone never aborts the job. -/
theorem C2_thrown_invocation_error_aborts (env : JobEnv) (dp fp mp : String)
    (h : env.stage1 = .raisedCalledProcessError) :
    (process_new_file env dp fp mp).stage2Ran = false ∧
    (process_new_file env dp fp mp).outputWritten = false ∧
    (process_new_file env dp fp mp).tempRemoveAttempted = false := by
  simp [process_new_file, h]

theorem C2_thrown_invocation_error_aborts_witness :
    (process_new_file cexEnvThrow "/watch" "/watch/config-a.xml" "/tmp/t.md").stage2Ran = false ∧
    (process_new_file cexEnvThrow "/watch" "/watch/config-a.xml" "/tmp/t.md").outputWritten
      = false ∧
    (process_new_file cexEnvThrow "/watch" "/watch/config-a.xml" "/tmp/t.md").tempRemoveAttempted
      = false :=
  C2_thrown_invocation_error_aborts cexEnvThrow "/watch" "/watch/config-a.xml" "/tmp/t.md" rfl

/-- C4 counterexample: stage 2 raises an exception and process_new_file
returns without removing the temporary intermediate file, contradicting the
claim that the temporary file is removed whenever stage 2 fails. -/
theorem C4_counterexample :
    cexEnvStage2Raise.stage2 = .raised ∧
    (process_new_file cexEnvStage2Raise "/watch" "/watch/config-a.xml" "/tmp/t.md").outputWritten
      = false ∧
    (process_new_file cexEnvStage2Raise "/watch" "/watch/config-a.xml" "/tmp/t.md").tempRemoveAttempted
      = false ∧
    (process_new_file cexEnvStage2Raise "/watch" "/watch/config-a.xml" "/tmp/t.md").tempRemoved
      = false := by
  decide

/-- C4 amended: when stage 2 raises, no final output is produced but the
temporary intermediate file is NOT removed (the function returns before the
cleanup); when stage 2 returns a non-empty diagnostic, the error is logged,
no success is signalled, and the job continues to the cleanup, which removes
the temporary file. -/
theorem C4_stage2_failure_behavior (env : JobEnv) (dp fp mp : String) :
    (env.stage2 = .raised →
      (process_new_file env dp fp mp).outputWritten = false ∧
      (process_new_file env dp fp mp).tempRemoveAttempted = false ∧
      (process_new_file env dp fp mp).tempRemoved = false) ∧
    (∀ d, env.stage2 = .returned d → d ≠ "" →
      (env.dirExists = true ∨ env.mkdir = .ok) →
      ∀ r, env.stage1 = .ran r →
        (process_new_file env dp fp mp).outputWritten = false ∧
        (process_new_file env dp fp mp).conversionErrorLogged = true ∧
        (process_new_file env dp fp mp).tempRemoveAttempted = true) := by
  obtain ⟨s1, de, mk, s2, rt⟩ := env
  constructor
  · rintro rfl
    cases s1 <;> cases de <;> cases mk <;>
      simp [process_new_file, stage2AndCleanup]
  · rintro d rfl hd hdm r rfl
    rcases hdm with h | h
    · subst h
      simp [process_new_file, stage2AndCleanup, hd]
    · subst h
      cases de <;> simp [process_new_file, stage2AndCleanup, hd]

theorem C4_stage2_failure_behavior_witness :
    ((process_new_file cexEnvStage2Raise "/watch" "/watch/config-a.xml" "/tmp/t.md").outputWritten
       = false ∧
     (process_new_file cexEnvStage2Raise "/watch" "/watch/config-a.xml" "/tmp/t.md").tempRemoveAttempted
       = false ∧
     (process_new_file cexEnvStage2Raise "/watch" "/watch/config-a.xml" "/tmp/t.md").tempRemoved
       = false) ∧
    ((process_new_file cexEnvDiag "/watch" "/watch/config-a.xml" "/tmp/t.md").outputWritten
       = false ∧
     (process_new_file cexEnvDiag "/watch" "/watch/config-a.xml" "/tmp/t.md").conversionErrorLogged
       = true ∧
     (process_new_file cexEnvDiag "/watch" "/watch/config-a.xml" "/tmp/t.md").tempRemoveAttempted
       = true) :=
  ⟨(C4_stage2_failure_behavior cexEnvStage2Raise "/watch" "/watch/config-a.xml" "/tmp/t.md").1 rfl,
   (C4_stage2_failure_behavior cexEnvDiag "/watch" "/watch/config-a.xml" "/tmp/t.md").2
     "pandoc: error" rfl (by decide) (Or.inl rfl)
     { returncode := 0, stdout := "", stderr := "" } rfl⟩

/-- C6: a non-empty stderr stream from the stage-1 process is logged as an
error but does not by itself abort the job — when the subprocess.run call
returns, the output path is still derived, and stage 2 still runs provided the
output directory is available. -/
theorem C6_stderr_nonfatal (env : JobEnv) (dp fp mp : String) (r : Stage1Run)
    (h1 : env.stage1 = .ran r) (h2 : r.stderr ≠ "") :
    (process_new_file env dp fp mp).stderrLogged = true ∧
    (process_new_file env dp fp mp).outputPathDerived = some (derivedOutputPath dp fp) ∧
    ((env.dirExists = true ∨ env.mkdir = .ok) →
      (process_new_file env dp fp mp).stage2Ran = true) := by
  obtain ⟨s1, de, mk, s2, rt⟩ := env
  cases h1
  cases de <;> cases mk <;> cases s2 <;>
    simp [process_new_file, stage2AndCleanup, h2]

theorem C6_stderr_nonfatal_witness :
    (process_new_file cexEnvStderr "/watch" "/watch/config-a.xml" "/tmp/t.md").stderrLogged
      = true ∧
    (process_new_file cexEnvStderr "/watch" "/watch/config-a.xml" "/tmp/t.md").outputPathDerived
      = some (derivedOutputPath "/watch" "/watch/config-a.xml") ∧
    ((cexEnvStderr.dirExists = true ∨ cexEnvStderr.mkdir = .ok) →
      (process_new_file cexEnvStderr "/watch" "/watch/config-a.xml" "/tmp/t.md").stage2Ran
        = true) :=
  C6_stderr_nonfatal cexEnvStderr "/watch" "/watch/config-a.xml" "/tmp/t.md"
    { returncode := 0, stdout := "", stderr := "warning" } rfl (by decide)

theorem data_mk (l : List Char) : (⟨l⟩ : String).data = l := rfl

theorem data_slash : ("/" : String).data = ['/'] := rfl

theorem data_docx : (".docx" : String).data = ['.', 'd', 'o', 'c', 'x'] := rfl

theorem takeWhile_all_eq_self {p : Char → Bool} {l : List Char}
    (h : ∀ x ∈ l, p x = true) : l.takeWhile p = l := by
  induction l with
  | nil => rfl
  | cons x xs ih =>
    rw [List.takeWhile_cons_of_pos (h x (by simp))]
    rw [ih (fun y hy => h y (by simp [hy]))]

theorem basename_no_slash {t : List Char} (hf : ∀ c ∈ t, c ≠ '/') :
    osPathBasename ⟨t⟩ = ⟨t⟩ := by
  unfold osPathBasename
  apply String.ext
  rw [data_mk, data_mk]
  have h1 : t.reverse.takeWhile (fun c => !(c == '/')) = t.reverse := by
    apply takeWhile_all_eq_self
    intro x hx
    simp only [List.mem_reverse] at hx
    simp [hf x hx]
  rw [h1, List.reverse_reverse]

theorem basename_append {d f : List Char} (hf : ∀ c ∈ f, c ≠ '/') :
    osPathBasename ⟨d ++ '/' :: f⟩ = ⟨f⟩ := by
  have hall : ∀ a ∈ f.reverse, (!(a == '/')) = true := by
    intro a ha
    simp only [List.mem_reverse] at ha
    simp [hf a ha]
  unfold osPathBasename
  apply String.ext
  rw [data_mk, data_mk]
  have h1 : (d ++ '/' :: f).reverse = f.reverse ++ '/' :: d.reverse := by simp
  rw [h1, List.takeWhile_append_of_pos hall]
  simp

theorem dirname_append (e : List Char) {lc : Char} (f : List Char)
    (hlc : lc ≠ '/') (hf : ∀ c ∈ f, c ≠ '/') :
    osPathDirname ⟨(e ++ [lc]) ++ '/' :: f⟩ = ⟨e ++ [lc]⟩ := by
  have hall : ∀ a ∈ f.reverse, (!(a == '/')) = true := by
    intro a ha
    simp only [List.mem_reverse] at ha
    simp [hf a ha]
  have hlcb : (lc == '/') = false := beq_eq_false_iff_ne.mpr hlc
  have h1 : ((e ++ [lc]) ++ '/' :: f).reverse = f.reverse ++ '/' :: lc :: e.reverse := by
    simp
  have h2 : (f.reverse ++ '/' :: lc :: e.reverse).dropWhile (fun c => !(c == '/'))
      = '/' :: lc :: e.reverse := by
    rw [List.dropWhile_append_of_pos hall, List.dropWhile_cons_of_neg (by simp)]
  simp only [osPathDirname, data_mk, h1, h2]
  have hcond : ('/' :: lc :: e.reverse).all (fun c => c == '/') = false := by
    simp [List.all_cons, hlcb]
  rw [hcond]
  simp only [Bool.false_eq_true, if_false]
  apply String.ext
  rw [data_mk, data_mk]
  rw [List.dropWhile_cons_of_pos (by simp), List.dropWhile_cons_of_neg (by simp [hlcb])]
  simp

theorem splitext_concat {t : List Char} {a b c : Char}
    (ha1 : a ≠ '.') (ha2 : a ≠ '/') (hb1 : b ≠ '.') (hb2 : b ≠ '/')
    (hc1 : c ≠ '.') (hc2 : c ≠ '/')
    (hbn : (osPathBasename ⟨t⟩).data.any (fun x => !(x == '.')) = true) :
    splitext ⟨t ++ ['.', a, b, c]⟩ = (⟨t⟩, ⟨['.', a, b, c]⟩) := by
  have hrev : (t ++ ['.', a, b, c]).reverse = c :: b :: a :: '.' :: t.reverse := by
    simp
  have hdrop : (c :: b :: a :: '.' :: t.reverse).dropWhile
      (fun x => !(x == '.' || x == '/')) = '.' :: t.reverse := by
    rw [List.dropWhile_cons_of_pos (by simp [hc1, hc2]),
      List.dropWhile_cons_of_pos (by simp [hb1, hb2]),
      List.dropWhile_cons_of_pos (by simp [ha1, ha2]),
      List.dropWhile_cons_of_neg (by simp)]
  have htake : (c :: b :: a :: '.' :: t.reverse).takeWhile
      (fun x => !(x == '.' || x == '/')) = [c, b, a] := by
    rw [List.takeWhile_cons_of_pos (by simp [hc1, hc2]),
      List.takeWhile_cons_of_pos (by simp [hb1, hb2]),
      List.takeWhile_cons_of_pos (by simp [ha1, ha2]),
      List.takeWhile_cons_of_neg (by simp)]
  simp only [splitext, data_mk, hrev, hdrop, htake]
  simp [List.reverse_reverse, hbn]

theorem startsWith_cons (l : List Char) (c : Char) (pre : List Char)
    (h : listStartsWith l (c :: pre) = true) : ∃ l₂, l = c :: l₂ := by
  cases l with
  | nil => simp [listStartsWith] at h
  | cons x xs =>
    refine ⟨xs, ?_⟩
    have h2 : x :: xs.take pre.length = c :: pre := by
      simpa [listStartsWith, List.take_succ_cons] using h
    injection h2 with hx htail
    rw [hx]

theorem not_endsWith_slash {l : List Char} (hne : l ≠ [])
    (h : listEndsWith l ['/'] = false) : ∃ e lc, l = e ++ [lc] ∧ lc ≠ '/' := by
  refine ⟨l.dropLast, l.getLast hne, (List.dropLast_append_getLast hne).symm, ?_⟩
  intro hsl
  have h2 : listEndsWith (l.dropLast ++ [l.getLast hne]) ['/'] = true := by
    simp [listEndsWith, hsl]
  rw [List.dropLast_append_getLast hne] at h2
  exact absurd (h2.symm.trans h) (by decide)

theorem endsWith_xml_structure {s : String}
    (h : strEndsWith (strLower s) ".xml" = true) :
    ∃ t a b c, s.data = t ++ ['.', a, b, c] ∧
      a ≠ '.' ∧ a ≠ '/' ∧ b ≠ '.' ∧ b ≠ '/' ∧ c ≠ '.' ∧ c ≠ '/' := by
  have h4 : (s.data.map Char.toLower).reverse.take 4 = ['l', 'm', 'x', '.'] := by
    simpa [strEndsWith, listEndsWith, strLower] using h
  have h4x : (s.data.reverse.take 4).map Char.toLower = ['l', 'm', 'x', '.'] := by
    rw [List.map_take, List.map_reverse]
    exact h4
  rcases hr : s.data.reverse with _ | ⟨a, _ | ⟨b, _ | ⟨c, _ | ⟨d, rest⟩⟩⟩⟩ <;>
    rw [hr] at h4x
  · simp at h4x
  · simp at h4x
  · simp at h4x
  · simp at h4x
  obtain ⟨hla, hlb, hlc, hld⟩ : Char.toLower a = 'l' ∧ Char.toLower b = 'm' ∧
      Char.toLower c = 'x' ∧ Char.toLower d = '.' := by
    simpa using h4x
  have hd : d = '.' := toLower_eq_dot hld
  have ha1 : a ≠ '.' := by intro hh; rw [hh] at hla; exact absurd hla (by decide)
  have ha2 : a ≠ '/' := by intro hh; rw [hh] at hla; exact absurd hla (by decide)
  have hb1 : b ≠ '.' := by intro hh; rw [hh] at hlb; exact absurd hlb (by decide)
  have hb2 : b ≠ '/' := by intro hh; rw [hh] at hlb; exact absurd hlb (by decide)
  have hc1 : c ≠ '.' := by intro hh; rw [hh] at hlc; exact absurd hlc (by decide)
  have hc2 : c ≠ '/' := by intro hh; rw [hh] at hlc; exact absurd hlc (by decide)
  refine ⟨rest.reverse, c, b, a, ?_, hc1, hc2, hb1, hb2, ha1, ha2⟩
  have hs : s.data = (a :: b :: c :: d :: rest).reverse := by
    rw [← hr, List.reverse_reverse]
  rw [hs, hd]
  simp

/-- C7: the scheduling loop attempts every root path in the given order, the
successfully watched roots are exactly those whose schedule call succeeds, and
the failures logged are exactly the roots whose schedule call raises OSError —
so one bad root never prevents the remaining roots from being scheduled. -/
theorem C7_watch_roots_independent (env : WatchEnv) (paths : List String) :
    (monitor_directory env paths).attempted = paths ∧
    (monitor_directory env paths).watched
      = paths.filter (fun p => decide (env.schedule p = .ok)) ∧
    (monitor_directory env paths).failuresLogged
      = paths.filter (fun p => !decide (env.schedule p = .ok)) := by
  induction paths with
  | nil => exact ⟨rfl, rfl, rfl⟩
  | cons p rest ih =>
    obtain ⟨ha, hw, hf⟩ := ih
    cases hs : env.schedule p <;>
      simp [monitor_directory, hs, ha, hw, hf, List.filter_cons]

/-- C5 counterexample: for the accepted job on the relative source path
"d/config-a.xml", the derived output path duplicates the directory component
("d/d/config-a.docx") instead of equalling the source directory joined with
the base name and the .docx extension ("d/config-a.docx"). -/
theorem C5_counterexample :
    on_created ⟨"d/config-a.xml", false⟩ = some ("d", "d/config-a.xml") ∧
    derivedOutputPath "d" "d/config-a.xml" = "d/d/config-a.docx" ∧
    specOutputPath "d/config-a.xml" = "d/config-a.docx" ∧
    derivedOutputPath "d" "d/config-a.xml" ≠ specOutputPath "d/config-a.xml" := by
  decide

/-- C5 amended: for accepted jobs whose source path is absolute (directory
component starting with a slash and not ending in one, filename containing no
slash), the derived output path equals the source file's own directory joined
with the source file's base name carrying the .docx extension — concretely
dir/stem.docx — and when the destination directory is missing, os.makedirs
runs before stage 2.  (For relative source paths the directory component is
duplicated, see the counterexample.) -/
theorem C5_output_path_adjacent_for_absolute (dir fname : String)
    (hA : listStartsWith dir.data ['/'] = true)
    (hE : listEndsWith dir.data ['/'] = false)
    (hS : ∀ c ∈ fname.data, c ≠ '/')
    (hP : strStartsWith fname "config-" = true)
    (hX : strEndsWith (strLower fname) ".xml" = true) :
    derivedOutputPath (osPathDirname (dir ++ "/" ++ fname)) (dir ++ "/" ++ fname)
      = specOutputPath (dir ++ "/" ++ fname) ∧
    specOutputPath (dir ++ "/" ++ fname)
      = dir ++ "/" ++ ((splitext fname).1 ++ ".docx") ∧
    (∀ env mp r, env.stage1 = .ran r → env.dirExists = false → env.mkdir = .ok →
      PipelineStep.makeDirs ∈
        ((process_new_file env (osPathDirname (dir ++ "/" ++ fname))
            (dir ++ "/" ++ fname) mp).trace.takeWhile
          (fun s => !(s == PipelineStep.runStage2)))) := by
  obtain ⟨t, aa, bb, cc, hF, ha1, ha2, hb1, hb2, hc1, hc2⟩ := endsWith_xml_structure hX
  obtain ⟨D2, hD⟩ := startsWith_cons dir.data '/' [] hA
  have hdirne : dir.data ≠ [] := by rw [hD]; simp
  obtain ⟨E, lc, hDe, hlc⟩ := not_endsWith_slash hdirne hE
  obtain ⟨t2, ht⟩ : ∃ t2, t = 'c' :: t2 := by
    obtain ⟨l2, hl2⟩ :=
      startsWith_cons fname.data 'c' ['o', 'n', 'f', 'i', 'g', '-'] hP
    cases t with
    | nil =>
      rw [hF] at hl2
      simp at hl2
    | cons x t2 =>
      refine ⟨t2, ?_⟩
      rw [hF] at hl2
      simp only [List.cons_append, List.cons.injEq] at hl2
      rw [hl2.1]
  have hts : ∀ x ∈ t, x ≠ '/' := by
    intro x hx
    exact hS x (by rw [hF]; exact List.mem_append_left _ hx)
  have hfp : dir ++ "/" ++ fname = ⟨dir.data ++ '/' :: fname.data⟩ := by
    apply String.ext
    simp [String.data_append, data_mk, data_slash]
  rw [hfp]
  have hbase : osPathBasename ⟨dir.data ++ '/' :: fname.data⟩ = fname := by
    rw [basename_append hS]
  have hdir2 : osPathDirname ⟨dir.data ++ '/' :: fname.data⟩ = dir := by
    have h1 := dirname_append E fname.data hlc hS
    have h2 : (⟨(E ++ [lc]) ++ '/' :: fname.data⟩ : String)
        = ⟨dir.data ++ '/' :: fname.data⟩ := by rw [hDe]
    have h3 : (⟨E ++ [lc]⟩ : String) = dir := by rw [← hDe]
    rw [← h2, ← h3]
    exact h1
  have hanyt : ((⟨t⟩ : String)).data.any (fun x => !(x == '.')) = true := by
    rw [data_mk, ht]
    simp
  have hsplit1 : splitext ⟨dir.data ++ '/' :: fname.data⟩
      = (⟨dir.data ++ '/' :: t⟩, ⟨['.', aa, bb, cc]⟩) := by
    have harg : (⟨dir.data ++ '/' :: fname.data⟩ : String)
        = ⟨(dir.data ++ '/' :: t) ++ ['.', aa, bb, cc]⟩ := by
      apply String.ext
      rw [data_mk, data_mk, hF]
      simp
    rw [harg]
    apply splitext_concat ha1 ha2 hb1 hb2 hc1 hc2
    rw [basename_append hts]
    exact hanyt
  have hsplit2 : splitext fname = (⟨t⟩, ⟨['.', aa, bb, cc]⟩) := by
    have harg : fname = ⟨t ++ ['.', aa, bb, cc]⟩ := String.ext (by rw [data_mk]; exact hF)
    rw [harg]
    apply splitext_concat ha1 ha2 hb1 hb2 hc1 hc2
    rw [basename_no_slash hts]
    exact hanyt
  have hjoin1 : osPathJoin dir ((⟨dir.data ++ '/' :: t⟩ : String) ++ ".docx")
      = (⟨dir.data ++ '/' :: t⟩ : String) ++ ".docx" := by
    unfold osPathJoin
    have hb : listStartsWith ((⟨dir.data ++ '/' :: t⟩ : String) ++ ".docx").data ['/']
        = true := by
      rw [String.data_append, data_mk, hD]
      simp [listStartsWith]
    rw [hb]
    simp
  have hjoin2 : osPathJoin dir ((⟨t⟩ : String) ++ ".docx")
      = dir ++ "/" ++ ((⟨t⟩ : String) ++ ".docx") := by
    unfold osPathJoin
    have hb : listStartsWith ((⟨t⟩ : String) ++ ".docx").data ['/'] = false := by
      rw [String.data_append, data_mk, ht]
      simp [listStartsWith]
    have hne : (dir.data == ([] : List Char)) = false := by
      rw [hD]
      simp
    rw [hb, hne, hE]
    simp
  refine ⟨?_, ?_, ?_⟩
  · unfold derivedOutputPath specOutputPath
    rw [hdir2, hbase, hsplit1, hsplit2, hjoin1, hjoin2]
    apply String.ext
    simp [String.data_append, data_mk, data_slash]
  · unfold specOutputPath
    rw [hdir2, hbase, hsplit2, hjoin2]
  · rintro env mp r h1 h2 h3
    obtain ⟨s1, de, mk, s2, rt⟩ := env
    simp only at h1 h2 h3
    subst h1
    subst h2
    subst h3
    cases s2 <;> cases hsl : decide (r.stderr ≠ "") <;>
      simp only [process_new_file, stage2AndCleanup, hsl, Bool.false_eq_true, if_false,
        if_true, List.append_assoc, List.cons_append, List.nil_append] <;>
      decide

theorem C5_output_path_adjacent_for_absolute_witness :
    (derivedOutputPath (osPathDirname ("/watch" ++ "/" ++ "config-a.xml"))
        ("/watch" ++ "/" ++ "config-a.xml")
      = specOutputPath ("/watch" ++ "/" ++ "config-a.xml")) ∧
    PipelineStep.makeDirs ∈
      ((process_new_file cexEnvMkdirOk (osPathDirname ("/watch" ++ "/" ++ "config-a.xml"))
          ("/watch" ++ "/" ++ "config-a.xml") "/tmp/t.md").trace.takeWhile
        (fun s => !(s == PipelineStep.runStage2))) := by
  have h := C5_output_path_adjacent_for_absolute "/watch" "config-a.xml"
    (by decide) (by decide) (by decide) (by decide) (by decide)
  exact ⟨h.1, h.2.2 cexEnvMkdirOk "/tmp/t.md"
    { returncode := 0, stdout := "", stderr := "" } rfl rfl rfl⟩

/-- C8: with the configured list empty (as in the source), either the
interactive entry yields no roots and the program exits with status 1, or it
yields a non-empty list of roots and monitoring starts on exactly that list —
monitoring is never started with an empty root set. -/
theorem C8_empty_roots_refuse_start (inputs : List String) :
    (collectPaths inputs = [] ∧ mainAction inputs = .exitWithError 1) ∨
    (∃ r rs, collectPaths inputs = r :: rs ∧
      mainAction inputs = .startMonitoring (r :: rs)) := by
  cases h : collectPaths inputs with
  | nil => exact Or.inl ⟨rfl, by simp [mainAction, h]⟩
  | cons r rs => exact Or.inr ⟨r, rs, rfl, by simp [mainAction, h]⟩

end MonitorModel
